import Mathlib

/-!
# Ozon seller API client: finance endpoints and client facade

A shallow embedding of `ozon/finance.go` and `ozon/ozon.go`.

* Go pointers to structs are `Option` values (`none` is the nil pointer).
* `[]T` is `List T` (a nil slice and an empty slice are both `[]`).
* The package `core` (the transport collaborator) is not part of these sources.
  Its behaviour is a parameter (`Collaborator`), and every call made into it is
  appended to a trace (`World`), so that the number, order and arguments of the
  calls can be stated.
-/

namespace Ozon

/-! ## Go scalar types -/

/-- Go `error` value (non-nil); a nil error is `none : Option GoError`. -/
structure GoError where
  message : String
  deriving DecidableEq, Repr

/-- Go `time.Time`; only the instant (nanoseconds since the Unix epoch) is kept. -/
structure Time where
  unixNano : Int := 0
  deriving DecidableEq, Repr

/-- Go `int32`: an integer in the range of 32-bit two's complement. -/
abbrev GoInt32 : Type := { n : Int // -2147483648 ≤ n ∧ n < 2147483648 }

/-- Go `int64`: an integer in the range of 64-bit two's complement. -/
abbrev GoInt64 : Type := { n : Int // -9223372036854775808 ≤ n ∧ n < 9223372036854775808 }

/-- Zero value of `int32`. -/
def GoInt32.zero : GoInt32 := ⟨0, by decide⟩

/-- Zero value of `int64`. -/
def GoInt64.zero : GoInt64 := ⟨0, by decide⟩

/-- A JSON number literal. `integer n` is a literal with neither a fraction nor an
exponent part; `decimal m e` is a literal with one of them, denoting `m * 10 ^ e`. -/
inductive JsonNumber where
  | integer (n : Int)
  | decimal (mantissa : Int) (exponent : Int)
  deriving DecidableEq, Repr

/-- Go `float64`, restricted to the values JSON can carry (finite ones). Such a value
is identified with the number literal that stands for it in a JSON document; binary
rounding of a literal is not part of the model. -/
abbrev Float64 : Type := JsonNumber

/-- Zero value of `float64`. -/
def Float64.zero : Float64 := JsonNumber.integer 0

/-- The constant `http.MethodPost` of Go's `net/http`. -/
def MethodPost : String := "POST"

/-! ## Package `core` (the transport collaborator) -/

/-- Modelled from the spec: `core.CommonResponseDetail`, one of the "error descriptors
returned by the remote service"; its declaration is not in the sources. -/
structure CommonResponseDetail where
  TypeUrl : String := ""
  Value : String := ""
  deriving DecidableEq, Repr

/-- Modelled from the spec: `core.CommonResponse`, the common response envelope, which
"carries a result/status code and an optional list of error descriptors returned by
the remote service" together with the "error code/message"; its declaration is not in
the sources. -/
structure CommonResponse where
  StatusCode : Int := 0
  Code : Int := 0
  Details : List CommonResponseDetail := []
  Message : String := ""
  deriving DecidableEq, Repr

/-- Modelled from the spec: `core.Response`, "the transport's own envelope
representation" returned by `Request`; its declaration is not in the sources. -/
structure Response where
  CommonResponse : CommonResponse := {}
  deriving DecidableEq, Repr

/-- Modelled from the spec: `core.Response.CopyCommonResponse`, which is to "copy the
decoded common envelope fields from the transport's own envelope representation into
the response's embedded envelope field". The result is the new content of `rhs`. -/
def Response.CopyCommonResponse (r : Response) (rhs : Ozon.CommonResponse) :
    Ozon.CommonResponse :=
  { rhs with
    Code := r.CommonResponse.Code
    Details := r.CommonResponse.Details
    StatusCode := r.CommonResponse.StatusCode
    Message := r.CommonResponse.Message }

/-- Handle of a `*core.Client`. -/
structure CorePtr where
  addr : Nat
  deriving DecidableEq, Repr

/-- A value of the interface `core.HttpClient`, identified by a handle. -/
structure HttpClient where
  id : Nat
  deriving DecidableEq, Repr

/-- A value of `http.HandlerFunc`, identified by a handle. -/
structure HandlerFunc where
  id : Nat
  deriving DecidableEq, Repr

/-- Go `map[string]string` literal: its key/value pairs in source order (Go rejects a
literal with a repeated constant key). -/
abbrev HeaderMap : Type := List (String × String)

/-- Value stored under a key of a header map. -/
def HeaderMap.get (m : HeaderMap) (key : String) : Option String :=
  (m.find? (fun kv => kv.1 == key)).map (fun kv => kv.2)

/-! ## Parameter and response types of `finance.go` -/

structure ReportOnSoldProductsParams where
  Date : String := ""
  deriving DecidableEq, Repr

/-- Element type of `ReportOnSoldProductsResponse.Result[i].Header`. -/
structure ReportOnSoldProductsHeader where
  Id : String := ""
  DocDate : String := ""
  ContractDate : String := ""
  ContractNum : String := ""
  CurrencyCode : String := ""
  DocAmount : Float64 := Float64.zero
  VATAmount : Float64 := Float64.zero
  PayerINN : String := ""
  PayerKPP : String := ""
  PayerName : String := ""
  RecipientINN : String := ""
  RecipientKPP : String := ""
  RecipientName : String := ""
  StartDate : String := ""
  StopDate : String := ""
  deriving DecidableEq, Repr

/-- Element type of `ReportOnSoldProductsResponse.Result[i].Rows`. -/
structure ReportOnSoldProductsRow where
  RowNumber : GoInt32 := GoInt32.zero
  ProductId : GoInt64 := GoInt64.zero
  ProductName : String := ""
  Barcode : String := ""
  OfferId : String := ""
  CommissionPercent : Float64 := Float64.zero
  Price : Float64 := Float64.zero
  PriceSale : Float64 := Float64.zero
  SaleAmount : Float64 := Float64.zero
  SaleCommission : Float64 := Float64.zero
  SaleDiscount : Float64 := Float64.zero
  SalePriceSeller : Float64 := Float64.zero
  SaleQuantity : GoInt32 := GoInt32.zero
  ReturnSale : Float64 := Float64.zero
  ReturnAmount : Float64 := Float64.zero
  ReturnCommission : Float64 := Float64.zero
  ReturnDiscount : Float64 := Float64.zero
  ReturnPriceSeller : Float64 := Float64.zero
  ReturnQuantity : GoInt32 := GoInt32.zero
  deriving DecidableEq, Repr

/-- Element type of `ReportOnSoldProductsResponse.Result`. -/
structure ReportOnSoldProductsResult where
  Header : List ReportOnSoldProductsHeader := []
  Rows : List ReportOnSoldProductsRow := []
  deriving DecidableEq, Repr

structure ReportOnSoldProductsResponse where
  CommonResponse : CommonResponse := {}
  Result : List ReportOnSoldProductsResult := []
  deriving DecidableEq, Repr

structure GetTotalTransactionsSumDate where
  From : Time := {}
  To : Time := {}
  deriving DecidableEq, Repr

structure GetTotalTransactionsSumParams where
  Date : GetTotalTransactionsSumDate := {}
  PostingNumber : String := ""
  TransactionType : String := ""
  deriving DecidableEq, Repr

/-- Type of `GetTotalTransactionsSumResponse.Result`. -/
structure GetTotalTransactionsSumResult where
  AccrualsForSale : Float64 := Float64.zero
  CompensationAmount : Float64 := Float64.zero
  MoneyTransfer : Float64 := Float64.zero
  OthersAmount : Float64 := Float64.zero
  ProcessingAndDelivery : Float64 := Float64.zero
  RefundsAndCancellations : Float64 := Float64.zero
  SaleCommission : Float64 := Float64.zero
  ServicesAmount : Float64 := Float64.zero
  deriving DecidableEq, Repr

structure GetTotalTransactionsSumResponse where
  CommonResponse : CommonResponse := {}
  Result : GetTotalTransactionsSumResult := {}
  deriving DecidableEq, Repr

/-! ## Calls into package `core` -/

/-- Dynamic type of the `req` and `resp` arguments (both `interface{}`) that an
endpoint method hands to `core.Client.Request`. -/
inductive Payload where
  | reportOnSoldProducts
  | getTotalTransactionsSum
  deriving DecidableEq, Repr

/-- Type behind the `req` pointer for each payload. -/
abbrev Payload.Params : Payload → Type
  | .reportOnSoldProducts => ReportOnSoldProductsParams
  | .getTotalTransactionsSum => GetTotalTransactionsSumParams

/-- Type behind the `resp` pointer for each payload. -/
abbrev Payload.Resp : Payload → Type
  | .reportOnSoldProducts => ReportOnSoldProductsResponse
  | .getTotalTransactionsSum => GetTotalTransactionsSumResponse

/-- Arguments of one call of `core.Client.Request`: receiver, verb, path and request
body (`none` is a nil `params` pointer). -/
structure RequestRecord where
  client : CorePtr
  method : String
  path : String
  payload : Payload
  body : Option payload.Params

/-- One call from package `ozon` into package `core`. -/
inductive CoreCall where
  | NewClient (httpClient : HttpClient) (baseUrl : String) (headers : HeaderMap)
  | NewMockClient (handler : HandlerFunc)
  | Request (r : RequestRecord)
  | CopyCommonResponse (envelope : Response)

/-- Trace of the calls made into package `core` so far, oldest first. -/
abbrev World : Type := List CoreCall

/-- Transport requests of a trace, oldest first (the log of `Request` calls). -/
def requestLog : World → List RequestRecord
  | [] => []
  | CoreCall.Request r :: rest => r :: requestLog rest
  | _ :: rest => requestLog rest

/-- Number of envelope copies in a trace. -/
def copyCount : World → Nat
  | [] => 0
  | CoreCall.CopyCommonResponse _ :: rest => copyCount rest + 1
  | _ :: rest => copyCount rest

/-- What `core.Client.Request` hands back: the `*Response` (`none` is nil), the `error`
(`none` is nil), and the content of the destination `resp` after the call. -/
structure RequestResult (R : Type) where
  response : Option Response
  err : Option GoError
  dest : R

/-- Behaviour of package `core`, which is outside these sources: which pointer each
constructor returns, and what `Request` returns and decodes into its destination, all
possibly depending on the calls made before. -/
structure Collaborator where
  newClient : World → HttpClient → String → HeaderMap → CorePtr
  newMockClient : World → HandlerFunc → CorePtr
  request : World → CorePtr → String → String → (k : Payload) → Option k.Params →
    k.Resp → RequestResult k.Resp

/-- Call of `core.NewClient`: the collaborator picks the pointer, the call is traced. -/
def coreNewClient (core : Collaborator) (httpClient : HttpClient) (baseUrl : String)
    (headers : HeaderMap) (w : World) : CorePtr × World :=
  (core.newClient w httpClient baseUrl headers, w ++ [CoreCall.NewClient httpClient baseUrl headers])

/-- Call of `core.NewMockClient`: the collaborator picks the pointer, the call is traced. -/
def coreNewMockClient (core : Collaborator) (handler : HandlerFunc) (w : World) :
    CorePtr × World :=
  (core.newMockClient w handler, w ++ [CoreCall.NewMockClient handler])

/-- Call of `core.Client.Request`: the collaborator picks the result, the call is traced. -/
def coreRequest (core : Collaborator) (client : CorePtr) (method path : String)
    (k : Payload) (req : Option k.Params) (resp : k.Resp) (w : World) :
    RequestResult k.Resp × World :=
  (core.request w client method path k req resp,
    w ++ [CoreCall.Request { client := client, method := method, path := path, payload := k, body := req }])

/-- Call of `Response.CopyCommonResponse` on the envelope field of a response: the new
content of that field, the call is traced. -/
def coreCopyCommonResponse (response : Response) (rhs : CommonResponse) (w : World) :
    CommonResponse × World :=
  (response.CopyCommonResponse rhs, w ++ [CoreCall.CopyCommonResponse response])

/-- How a call of an endpoint method ends: it returns its two results (response
pointer and error), or it panics on a nil dereference. -/
inductive Outcome (R : Type) where
  | returned (resp : Option R) (err : Option GoError)
  | panicked

/-- Error returned, if the call returned one. -/
def Outcome.err {R : Type} : Outcome R → Option GoError
  | .returned _ err => err
  | .panicked => none

/-! ## `ozon.go`: the client facade -/

def DefaultAPIBaseUrl : String := "https://api-seller.ozon.ru"

structure Analytics where
  client : CorePtr
  deriving DecidableEq, Repr

structure FBO where
  client : CorePtr
  deriving DecidableEq, Repr

structure FBS where
  client : CorePtr
  deriving DecidableEq, Repr

structure Finance where
  client : CorePtr
  deriving DecidableEq, Repr

structure Products where
  client : CorePtr
  deriving DecidableEq, Repr

structure Promotions where
  client : CorePtr
  deriving DecidableEq, Repr

structure Rating where
  client : CorePtr
  deriving DecidableEq, Repr

structure Warehouses where
  client : CorePtr
  deriving DecidableEq, Repr

structure Returns where
  client : CorePtr
  deriving DecidableEq, Repr

structure Reports where
  client : CorePtr
  deriving DecidableEq, Repr

structure Cancellations where
  client : CorePtr
  deriving DecidableEq, Repr

structure Categories where
  client : CorePtr
  deriving DecidableEq, Repr

structure Polygons where
  client : CorePtr
  deriving DecidableEq, Repr

structure Invoices where
  client : CorePtr
  deriving DecidableEq, Repr

structure Brands where
  client : CorePtr
  deriving DecidableEq, Repr

structure Chats where
  client : CorePtr
  deriving DecidableEq, Repr

structure Certificates where
  client : CorePtr
  deriving DecidableEq, Repr

structure Strategies where
  client : CorePtr
  deriving DecidableEq, Repr

structure Barcodes where
  client : CorePtr
  deriving DecidableEq, Repr

structure Client where
  client : CorePtr
  analytics : Option Analytics
  fbo : Option FBO
  fbs : Option FBS
  finance : Option Finance
  products : Option Products
  promotions : Option Promotions
  rating : Option Rating
  warehouses : Option Warehouses
  returns : Option Returns
  reports : Option Reports
  cancellations : Option Cancellations
  categories : Option Categories
  polygons : Option Polygons
  invoices : Option Invoices
  brands : Option Brands
  chats : Option Chats
  certificates : Option Certificates
  strategies : Option Strategies
  barcodes : Option Barcodes
  deriving DecidableEq, Repr

end Ozon

def Ozon.Client.Analytics (c : Ozon.Client) : Option Ozon.Analytics := c.analytics

def Ozon.Client.FBO (c : Ozon.Client) : Option Ozon.FBO := c.fbo

def Ozon.Client.FBS (c : Ozon.Client) : Option Ozon.FBS := c.fbs

def Ozon.Client.Finance (c : Ozon.Client) : Option Ozon.Finance := c.finance

def Ozon.Client.Products (c : Ozon.Client) : Option Ozon.Products := c.products

def Ozon.Client.Promotions (c : Ozon.Client) : Option Ozon.Promotions := c.promotions

def Ozon.Client.Rating (c : Ozon.Client) : Option Ozon.Rating := c.rating

def Ozon.Client.Warehouses (c : Ozon.Client) : Option Ozon.Warehouses := c.warehouses

def Ozon.Client.Returns (c : Ozon.Client) : Option Ozon.Returns := c.returns

def Ozon.Client.Reports (c : Ozon.Client) : Option Ozon.Reports := c.reports

def Ozon.Client.Cancellations (c : Ozon.Client) : Option Ozon.Cancellations := c.cancellations

def Ozon.Client.Categories (c : Ozon.Client) : Option Ozon.Categories := c.categories

def Ozon.Client.Polygons (c : Ozon.Client) : Option Ozon.Polygons := c.polygons

def Ozon.Client.Invoices (c : Ozon.Client) : Option Ozon.Invoices := c.invoices

def Ozon.Client.Brands (c : Ozon.Client) : Option Ozon.Brands := c.brands

def Ozon.Client.Chats (c : Ozon.Client) : Option Ozon.Chats := c.chats

def Ozon.Client.Certificates (c : Ozon.Client) : Option Ozon.Certificates := c.certificates

def Ozon.Client.Strategies (c : Ozon.Client) : Option Ozon.Strategies := c.strategies

def Ozon.Client.Barcodes (c : Ozon.Client) : Option Ozon.Barcodes := c.barcodes

namespace Ozon

/-- The function `NewClient` of ozon.go. The returned `*Client` is never nil, so the
facade itself is returned, with the trace after the call. -/
def NewClient (core : Collaborator) (httpClient : HttpClient) (clientId apiKey : String)
    (w : World) : Client × World :=
  let (coreClient, w1) := coreNewClient core httpClient DefaultAPIBaseUrl
    [("Client-Id", clientId), ("Api-Key", apiKey)] w
  ({ client := coreClient
     analytics := some { client := coreClient }
     fbo := some { client := coreClient }
     fbs := some { client := coreClient }
     finance := some { client := coreClient }
     products := some { client := coreClient }
     promotions := some { client := coreClient }
     rating := some { client := coreClient }
     warehouses := some { client := coreClient }
     returns := some { client := coreClient }
     reports := some { client := coreClient }
     cancellations := some { client := coreClient }
     categories := some { client := coreClient }
     polygons := some { client := coreClient }
     invoices := some { client := coreClient }
     brands := some { client := coreClient }
     chats := some { client := coreClient }
     certificates := some { client := coreClient }
     strategies := some { client := coreClient }
     barcodes := some { client := coreClient } }, w1)

/-- The function `NewMockClient` of ozon.go. -/
def NewMockClient (core : Collaborator) (handler : HandlerFunc) (w : World) :
    Client × World :=
  let (coreClient, w1) := coreNewMockClient core handler w
  ({ client := coreClient
     analytics := some { client := coreClient }
     fbo := some { client := coreClient }
     fbs := some { client := coreClient }
     finance := some { client := coreClient }
     products := some { client := coreClient }
     promotions := some { client := coreClient }
     rating := some { client := coreClient }
     warehouses := some { client := coreClient }
     returns := some { client := coreClient }
     reports := some { client := coreClient }
     cancellations := some { client := coreClient }
     categories := some { client := coreClient }
     polygons := some { client := coreClient }
     invoices := some { client := coreClient }
     brands := some { client := coreClient }
     chats := some { client := coreClient }
     certificates := some { client := coreClient }
     strategies := some { client := coreClient }
     barcodes := some { client := coreClient } }, w1)

/-! ## `finance.go`: the endpoint methods -/

/-- The method `ReportOnSoldProducts` of finance.go, `params` being the pointer handed
in (`none` is nil). The result is how the call ends and the trace after it. -/
def Client.ReportOnSoldProducts (core : Collaborator) (c : Client)
    (params : Option ReportOnSoldProductsParams) (w : World) :
    Outcome ReportOnSoldProductsResponse × World :=
  let url := "/v1/finance/realization"
  let resp : ReportOnSoldProductsResponse := {}
  let (r, w1) := coreRequest core c.client MethodPost url Payload.reportOnSoldProducts params resp w
  match r.err with
  | some err => (Outcome.returned none (some err), w1)
  | none =>
    match r.response with
    | none => (Outcome.panicked, w1)
    | some response =>
      let (envelope, w2) := coreCopyCommonResponse response r.dest.CommonResponse w1
      (Outcome.returned (some { r.dest with CommonResponse := envelope }) none, w2)

/-- The method `GetTotalTransactionsSum` of finance.go. -/
def Client.GetTotalTransactionsSum (core : Collaborator) (c : Client)
    (params : Option GetTotalTransactionsSumParams) (w : World) :
    Outcome GetTotalTransactionsSumResponse × World :=
  let url := "/v3/finance/transaction/totals"
  let resp : GetTotalTransactionsSumResponse := {}
  let (r, w1) := coreRequest core c.client MethodPost url Payload.getTotalTransactionsSum params resp w
  match r.err with
  | some err => (Outcome.returned none (some err), w1)
  | none =>
    match r.response with
    | none => (Outcome.panicked, w1)
    | some response =>
      let (envelope, w2) := coreCopyCommonResponse response r.dest.CommonResponse w1
      (Outcome.returned (some { r.dest with CommonResponse := envelope }) none, w2)

/-! ## JSON binding of the response payloads

The decoding itself is done by Go's `encoding/json` inside the collaborator. What
finance.go contributes is the binding of every struct field to a JSON key (its tag)
and to a Go type. The binding is written down here as one table per struct; the
decoder below reads an object member by member, as `encoding/json` does:

* a member whose key is the tag of a field, exactly or else up to case, is decoded into
  that field;
* a member whose key is the tag of no field, not even up to case, is skipped;
* a `null` leaves a scalar or struct field as it is, and empties a slice;
* a value of the wrong JSON type makes the decoding fail;
* the elements of an array are decoded into fresh elements.
-/

/-- A JSON value. -/
inductive Json where
  | null
  | bool (b : Bool)
  | number (n : JsonNumber)
  | string (s : String)
  | array (elems : List Json)
  | object (members : List (String × Json))

/-- Decode into a Go `string` field holding `cur`. -/
def decodeString (cur : String) : Json → Option String
  | Json.null => some cur
  | Json.string s => some s
  | _ => none

/-- Decode into a Go `float64` field holding `cur`. -/
def decodeFloat64 (cur : Float64) : Json → Option Float64
  | Json.null => some cur
  | Json.number n => some n
  | _ => none

/-- Decode into a Go `int32` field holding `cur`: the literal must be an integer in
range. -/
def decodeInt32 (cur : GoInt32) : Json → Option GoInt32
  | Json.null => some cur
  | Json.number (JsonNumber.integer n) =>
    if h : -2147483648 ≤ n ∧ n < 2147483648 then some ⟨n, h⟩ else none
  | _ => none

/-- Decode into a Go `int64` field holding `cur`: the literal must be an integer in
range. -/
def decodeInt64 (cur : GoInt64) : Json → Option GoInt64
  | Json.null => some cur
  | Json.number (JsonNumber.integer n) =>
    if h : -9223372036854775808 ≤ n ∧ n < 9223372036854775808 then some ⟨n, h⟩ else none
  | _ => none

/-- Decode every element of a JSON array, in order; fails if one element fails. -/
def decodeElems {α : Type} (elem : Json → Option α) : List Json → Option (List α)
  | [] => some []
  | j :: js =>
    match elem j, decodeElems elem js with
    | some a, some as => some (a :: as)
    | _, _ => none

/-- Decode into a Go slice field, every element starting from its zero value. -/
def decodeSlice {α : Type} (elem : Json → Option α) : Json → Option (List α)
  | Json.null => some []
  | Json.array es => decodeElems elem es
  | _ => none

/-- Binding of one struct field: its JSON key (the `json:"..."` tag), how the field is
encoded, and how a JSON value is decoded into it. -/
structure FieldCodec (σ : Type) where
  tag : String
  encode : σ → Json
  decode : σ → Json → Option σ

/-- Case folding of one character of a key, as far as it can matter for a tag made of
ASCII characters: a lower-case ASCII letter goes to its upper-case letter, the Kelvin
sign (U+212A) to `K` and the long s (U+017F) to `S`. -/
def foldChar (c : Char) : Char :=
  if 97 ≤ c.toNat ∧ c.toNat ≤ 122 then Char.ofNat (c.toNat - 32)
  else if c.toNat = 8490 then Char.ofNat 75
  else if c.toNat = 383 then Char.ofNat 83
  else c

/-- Case folding of a key. -/
def foldName (s : String) : String :=
  String.mk (s.data.map foldChar)

/-- Field bound to a JSON key, if there is one: the field whose tag is the key, or else
the first field whose tag is the key up to case. -/
def findField {σ : Type} (fields : List (FieldCodec σ)) (key : String) : Option (FieldCodec σ) :=
  match fields.find? (fun f => f.tag == key) with
  | some f => some f
  | none => fields.find? (fun f => foldName f.tag == foldName key)

/-- Decode one object member into a struct. -/
def decodeMember {σ : Type} (fields : List (FieldCodec σ)) (acc : σ) (kv : String × Json) :
    Option σ :=
  match findField fields kv.1 with
  | none => some acc
  | some f => f.decode acc kv.2

/-- Decode the members of an object into a struct, first to last. -/
def decodeMembers {σ : Type} (fields : List (FieldCodec σ)) : σ → List (String × Json) → Option σ
  | acc, [] => some acc
  | acc, kv :: rest =>
    match decodeMember fields acc kv with
    | none => none
    | some acc1 => decodeMembers fields acc1 rest

/-- Decode a JSON value into a struct holding `cur`. -/
def decodeStruct {σ : Type} (fields : List (FieldCodec σ)) (cur : σ) : Json → Option σ
  | Json.null => some cur
  | Json.object ms => decodeMembers fields cur ms
  | _ => none

/-- Encode a struct as the JSON object keyed by its tags, in declaration order. -/
def encodeStruct {σ : Type} (fields : List (FieldCodec σ)) (v : σ) : Json :=
  Json.object (fields.map (fun f => (f.tag, f.encode v)))

/-- Tags of a struct, in declaration order. -/
def tagsOf {σ : Type} (fields : List (FieldCodec σ)) : List String :=
  fields.map (fun f => f.tag)

/-- Field tags of the elements of `Header` (finance.go lines 21 to 66). -/
def headerFields : List (FieldCodec ReportOnSoldProductsHeader) :=
  [ { tag := "num", encode := fun h => Json.string h.Id,
      decode := fun h j => (decodeString h.Id j).map (fun v => { h with Id := v }) },
    { tag := "doc_date", encode := fun h => Json.string h.DocDate,
      decode := fun h j => (decodeString h.DocDate j).map (fun v => { h with DocDate := v }) },
    { tag := "contract_date", encode := fun h => Json.string h.ContractDate,
      decode := fun h j => (decodeString h.ContractDate j).map (fun v => { h with ContractDate := v }) },
    { tag := "contract_num", encode := fun h => Json.string h.ContractNum,
      decode := fun h j => (decodeString h.ContractNum j).map (fun v => { h with ContractNum := v }) },
    { tag := "currency_code", encode := fun h => Json.string h.CurrencyCode,
      decode := fun h j => (decodeString h.CurrencyCode j).map (fun v => { h with CurrencyCode := v }) },
    { tag := "doc_amount", encode := fun h => Json.number h.DocAmount,
      decode := fun h j => (decodeFloat64 h.DocAmount j).map (fun v => { h with DocAmount := v }) },
    { tag := "vat_amount", encode := fun h => Json.number h.VATAmount,
      decode := fun h j => (decodeFloat64 h.VATAmount j).map (fun v => { h with VATAmount := v }) },
    { tag := "payer_inn", encode := fun h => Json.string h.PayerINN,
      decode := fun h j => (decodeString h.PayerINN j).map (fun v => { h with PayerINN := v }) },
    { tag := "payer_kpp", encode := fun h => Json.string h.PayerKPP,
      decode := fun h j => (decodeString h.PayerKPP j).map (fun v => { h with PayerKPP := v }) },
    { tag := "payer_name", encode := fun h => Json.string h.PayerName,
      decode := fun h j => (decodeString h.PayerName j).map (fun v => { h with PayerName := v }) },
    { tag := "rcv_inn", encode := fun h => Json.string h.RecipientINN,
      decode := fun h j => (decodeString h.RecipientINN j).map (fun v => { h with RecipientINN := v }) },
    { tag := "rcv_kpp", encode := fun h => Json.string h.RecipientKPP,
      decode := fun h j => (decodeString h.RecipientKPP j).map (fun v => { h with RecipientKPP := v }) },
    { tag := "rcv_name", encode := fun h => Json.string h.RecipientName,
      decode := fun h j => (decodeString h.RecipientName j).map (fun v => { h with RecipientName := v }) },
    { tag := "start_date", encode := fun h => Json.string h.StartDate,
      decode := fun h j => (decodeString h.StartDate j).map (fun v => { h with StartDate := v }) },
    { tag := "stop_date", encode := fun h => Json.string h.StopDate,
      decode := fun h j => (decodeString h.StopDate j).map (fun v => { h with StopDate := v }) } ]

/-- Field tags of the elements of `Rows` (finance.go lines 69 to 137). -/
def rowFields : List (FieldCodec ReportOnSoldProductsRow) :=
  [ { tag := "row_number", encode := fun r => Json.number (JsonNumber.integer r.RowNumber.val),
      decode := fun r j => (decodeInt32 r.RowNumber j).map (fun v => { r with RowNumber := v }) },
    { tag := "product_id", encode := fun r => Json.number (JsonNumber.integer r.ProductId.val),
      decode := fun r j => (decodeInt64 r.ProductId j).map (fun v => { r with ProductId := v }) },
    { tag := "product_name", encode := fun r => Json.string r.ProductName,
      decode := fun r j => (decodeString r.ProductName j).map (fun v => { r with ProductName := v }) },
    { tag := "barcode", encode := fun r => Json.string r.Barcode,
      decode := fun r j => (decodeString r.Barcode j).map (fun v => { r with Barcode := v }) },
    { tag := "offer_id", encode := fun r => Json.string r.OfferId,
      decode := fun r j => (decodeString r.OfferId j).map (fun v => { r with OfferId := v }) },
    { tag := "commission_percent", encode := fun r => Json.number r.CommissionPercent,
      decode := fun r j => (decodeFloat64 r.CommissionPercent j).map (fun v => { r with CommissionPercent := v }) },
    { tag := "price", encode := fun r => Json.number r.Price,
      decode := fun r j => (decodeFloat64 r.Price j).map (fun v => { r with Price := v }) },
    { tag := "price_sale", encode := fun r => Json.number r.PriceSale,
      decode := fun r j => (decodeFloat64 r.PriceSale j).map (fun v => { r with PriceSale := v }) },
    { tag := "sale_amount", encode := fun r => Json.number r.SaleAmount,
      decode := fun r j => (decodeFloat64 r.SaleAmount j).map (fun v => { r with SaleAmount := v }) },
    { tag := "sale_commission", encode := fun r => Json.number r.SaleCommission,
      decode := fun r j => (decodeFloat64 r.SaleCommission j).map (fun v => { r with SaleCommission := v }) },
    { tag := "sale_discount", encode := fun r => Json.number r.SaleDiscount,
      decode := fun r j => (decodeFloat64 r.SaleDiscount j).map (fun v => { r with SaleDiscount := v }) },
    { tag := "sale_price_seller", encode := fun r => Json.number r.SalePriceSeller,
      decode := fun r j => (decodeFloat64 r.SalePriceSeller j).map (fun v => { r with SalePriceSeller := v }) },
    { tag := "sale_qty", encode := fun r => Json.number (JsonNumber.integer r.SaleQuantity.val),
      decode := fun r j => (decodeInt32 r.SaleQuantity j).map (fun v => { r with SaleQuantity := v }) },
    { tag := "return_sale", encode := fun r => Json.number r.ReturnSale,
      decode := fun r j => (decodeFloat64 r.ReturnSale j).map (fun v => { r with ReturnSale := v }) },
    { tag := "return_amount", encode := fun r => Json.number r.ReturnAmount,
      decode := fun r j => (decodeFloat64 r.ReturnAmount j).map (fun v => { r with ReturnAmount := v }) },
    { tag := "return_commission", encode := fun r => Json.number r.ReturnCommission,
      decode := fun r j => (decodeFloat64 r.ReturnCommission j).map (fun v => { r with ReturnCommission := v }) },
    { tag := "return_discount", encode := fun r => Json.number r.ReturnDiscount,
      decode := fun r j => (decodeFloat64 r.ReturnDiscount j).map (fun v => { r with ReturnDiscount := v }) },
    { tag := "return_price_seller", encode := fun r => Json.number r.ReturnPriceSeller,
      decode := fun r j => (decodeFloat64 r.ReturnPriceSeller j).map (fun v => { r with ReturnPriceSeller := v }) },
    { tag := "return_qty", encode := fun r => Json.number (JsonNumber.integer r.ReturnQuantity.val),
      decode := fun r j => (decodeInt32 r.ReturnQuantity j).map (fun v => { r with ReturnQuantity := v }) } ]

/-- Decode one element of `Header`. -/
def decodeHeader (j : Json) : Option ReportOnSoldProductsHeader :=
  decodeStruct headerFields {} j

/-- Decode one element of `Rows`. -/
def decodeRow (j : Json) : Option ReportOnSoldProductsRow :=
  decodeStruct rowFields {} j

/-- Field tags of the elements of `Result` (finance.go lines 19 to 138). -/
def resultFields : List (FieldCodec ReportOnSoldProductsResult) :=
  [ { tag := "header", encode := fun r => Json.array (r.Header.map (encodeStruct headerFields)),
      decode := fun r j => (decodeSlice decodeHeader j).map (fun v => { r with Header := v }) },
    { tag := "rows", encode := fun r => Json.array (r.Rows.map (encodeStruct rowFields)),
      decode := fun r j => (decodeSlice decodeRow j).map (fun v => { r with Rows := v }) } ]

/-- Decode one element of `Result`. -/
def decodeResult (j : Json) : Option ReportOnSoldProductsResult :=
  decodeStruct resultFields {} j

/-- Field tag of `ReportOnSoldProductsResponse.Result`. The fields of the embedded
envelope are bound by package `core`, which decodes the envelope on its own. -/
def reportOnSoldProductsResponseFields : List (FieldCodec ReportOnSoldProductsResponse) :=
  [ { tag := "result", encode := fun r => Json.array (r.Result.map (encodeStruct resultFields)),
      decode := fun r j => (decodeSlice decodeResult j).map (fun v => { r with Result := v }) } ]

/-- Field tags of `GetTotalTransactionsSumResponse.Result` (finance.go lines 195 to
228). -/
def totalsFields : List (FieldCodec GetTotalTransactionsSumResult) :=
  [ { tag := "accruals_for_sale", encode := fun r => Json.number r.AccrualsForSale,
      decode := fun r j => (decodeFloat64 r.AccrualsForSale j).map (fun v => { r with AccrualsForSale := v }) },
    { tag := "compensatino_amount", encode := fun r => Json.number r.CompensationAmount,
      decode := fun r j => (decodeFloat64 r.CompensationAmount j).map (fun v => { r with CompensationAmount := v }) },
    { tag := "money_transfer", encode := fun r => Json.number r.MoneyTransfer,
      decode := fun r j => (decodeFloat64 r.MoneyTransfer j).map (fun v => { r with MoneyTransfer := v }) },
    { tag := "others_amount", encode := fun r => Json.number r.OthersAmount,
      decode := fun r j => (decodeFloat64 r.OthersAmount j).map (fun v => { r with OthersAmount := v }) },
    { tag := "processing_and_delivery", encode := fun r => Json.number r.ProcessingAndDelivery,
      decode := fun r j => (decodeFloat64 r.ProcessingAndDelivery j).map (fun v => { r with ProcessingAndDelivery := v }) },
    { tag := "refunds_and_cancellations", encode := fun r => Json.number r.RefundsAndCancellations,
      decode := fun r j => (decodeFloat64 r.RefundsAndCancellations j).map (fun v => { r with RefundsAndCancellations := v }) },
    { tag := "sale_commission", encode := fun r => Json.number r.SaleCommission,
      decode := fun r j => (decodeFloat64 r.SaleCommission j).map (fun v => { r with SaleCommission := v }) },
    { tag := "services_amount", encode := fun r => Json.number r.ServicesAmount,
      decode := fun r j => (decodeFloat64 r.ServicesAmount j).map (fun v => { r with ServicesAmount := v }) } ]

/-- Field tag of `GetTotalTransactionsSumResponse.Result`. -/
def getTotalTransactionsSumResponseFields : List (FieldCodec GetTotalTransactionsSumResponse) :=
  [ { tag := "result", encode := fun r => encodeStruct totalsFields r.Result,
      decode := fun r j => (decodeStruct totalsFields r.Result j).map (fun v => { r with Result := v }) } ]

/-- Decode a response body into the destination `resp` of `ReportOnSoldProducts`. -/
def decodeReportOnSoldProductsResponse (resp : ReportOnSoldProductsResponse) (body : Json) :
    Option ReportOnSoldProductsResponse :=
  decodeStruct reportOnSoldProductsResponseFields resp body

/-- Decode a response body into the destination `resp` of `GetTotalTransactionsSum`. -/
def decodeGetTotalTransactionsSumResponse (resp : GetTotalTransactionsSumResponse) (body : Json) :
    Option GetTotalTransactionsSumResponse :=
  decodeStruct getTotalTransactionsSumResponseFields resp body

/-! ## Observations on traces, and two collaborators to run the model on -/

/-- Number of `core` clients constructed in a trace. -/
def constructorCount : World → Nat
  | [] => 0
  | CoreCall.NewClient _ _ _ :: rest => constructorCount rest + 1
  | CoreCall.NewMockClient _ :: rest => constructorCount rest + 1
  | _ :: rest => constructorCount rest

/-- A collaborator whose every request fails with the error `e` and leaves the
destination untouched. -/
def failingCollaborator (e : GoError) : Collaborator :=
  { newClient := fun w _ _ _ => { addr := w.length }
    newMockClient := fun w _ => { addr := w.length }
    request := fun _ _ _ _ _ _ resp => { response := none, err := some e, dest := resp } }

/-- A collaborator whose every request succeeds with the envelope `envelope` and
leaves the destination untouched. -/
def replyingCollaborator (envelope : Response) : Collaborator :=
  { newClient := fun w _ _ _ => { addr := w.length }
    newMockClient := fun w _ => { addr := w.length }
    request := fun _ _ _ _ _ _ resp => { response := some envelope, err := none, dest := resp } }

/-- A facade built by `NewMockClient` on an empty trace, for running the methods. -/
def sampleClient : Client :=
  (NewMockClient (replyingCollaborator {}) { id := 0 } []).1

/-- Params of `GetTotalTransactionsSum` whose period starts after it ends. -/
def reversedPeriodParams : GetTotalTransactionsSumParams :=
  { Date := { From := { unixNano := 2000 }, To := { unixNano := 1000 } }
    PostingNumber := "39268230-0002-3"
    TransactionType := "all" }

/-- Params of `GetTotalTransactionsSum` whose period starts before it ends. -/
def orderedPeriodParams : GetTotalTransactionsSumParams :=
  { Date := { From := { unixNano := 1000 }, To := { unixNano := 2000 } } }

/-- An envelope with which the remote service rejects a request. -/
def rejectionEnvelope : Response :=
  { CommonResponse := { StatusCode := 400, Code := 3, Message := "invalid date" } }

/-- A response body of `/v3/finance/transaction/totals` carrying the eight keys in the
snake_case form of the Go field names, with the values 1 to 8. -/
def sampleTotalsBody : Json :=
  Json.object
    [ ("result", Json.object
        [ ("accruals_for_sale", Json.number (JsonNumber.integer 1)),
          ("compensation_amount", Json.number (JsonNumber.integer 2)),
          ("money_transfer", Json.number (JsonNumber.integer 3)),
          ("others_amount", Json.number (JsonNumber.integer 4)),
          ("processing_and_delivery", Json.number (JsonNumber.integer 5)),
          ("refunds_and_cancellations", Json.number (JsonNumber.integer 6)),
          ("sale_commission", Json.number (JsonNumber.integer 7)),
          ("services_amount", Json.number (JsonNumber.integer 8)) ]) ]

/-! # Theorems -/

/-! ## Trace lemmas -/

theorem requestLog_append (w v : World) :
    requestLog (w ++ v) = requestLog w ++ requestLog v := by
  induction w with
  | nil => rfl
  | cons x xs ih => cases x <;> simp [requestLog, ih]

theorem copyCount_append (w v : World) :
    copyCount (w ++ v) = copyCount w + copyCount v := by
  induction w with
  | nil => simp [copyCount]
  | cons x xs ih => cases x <;> simp [copyCount, ih, Nat.add_right_comm]

theorem constructorCount_append (w v : World) :
    constructorCount (w ++ v) = constructorCount w + constructorCount v := by
  induction w with
  | nil => simp [constructorCount]
  | cons x xs ih => cases x <;> simp [constructorCount, ih, Nat.add_right_comm]

/-! ## Endpoint methods -/

/-- C1: when the transport's `Request` returns a non-nil error `e`, each of
`ReportOnSoldProducts` and `GetTotalTransactionsSum` returns a nil response together
with that same error `e`, and no envelope copy is performed. -/
theorem transport_error_returned_unchanged (core : Collaborator) (c : Client) (w : World)
    (e : GoError) (p1 : Option ReportOnSoldProductsParams)
    (p2 : Option GetTotalTransactionsSumParams) :
    ((core.request w c.client "POST" "/v1/finance/realization" Payload.reportOnSoldProducts p1
        ({} : ReportOnSoldProductsResponse)).err = some e →
      (c.ReportOnSoldProducts core p1 w).1 = Outcome.returned none (some e) ∧
      copyCount (c.ReportOnSoldProducts core p1 w).2 = copyCount w) ∧
    ((core.request w c.client "POST" "/v3/finance/transaction/totals"
        Payload.getTotalTransactionsSum p2 ({} : GetTotalTransactionsSumResponse)).err = some e →
      (c.GetTotalTransactionsSum core p2 w).1 = Outcome.returned none (some e) ∧
      copyCount (c.GetTotalTransactionsSum core p2 w).2 = copyCount w) := by
  constructor
  · intro h
    simp [Client.ReportOnSoldProducts, coreRequest, MethodPost, h, copyCount_append, copyCount]
  · intro h
    simp [Client.GetTotalTransactionsSum, coreRequest, MethodPost, h, copyCount_append, copyCount]

/-- Witness of C1: a transport failing with "connection refused". -/
theorem transport_error_returned_unchanged_witness :
    (((failingCollaborator { message := "connection refused" }).request [] sampleClient.client
        "POST" "/v1/finance/realization" Payload.reportOnSoldProducts
        (some { Date := "2023-05" }) ({} : ReportOnSoldProductsResponse)).err
        = some { message := "connection refused" } ∧
      (sampleClient.ReportOnSoldProducts (failingCollaborator { message := "connection refused" })
        (some { Date := "2023-05" }) []).1
        = Outcome.returned none (some { message := "connection refused" }) ∧
      copyCount (sampleClient.ReportOnSoldProducts
        (failingCollaborator { message := "connection refused" }) (some { Date := "2023-05" }) []).2
        = copyCount []) ∧
    (((failingCollaborator { message := "connection refused" }).request [] sampleClient.client
        "POST" "/v3/finance/transaction/totals" Payload.getTotalTransactionsSum
        (some {}) ({} : GetTotalTransactionsSumResponse)).err
        = some { message := "connection refused" } ∧
      (sampleClient.GetTotalTransactionsSum (failingCollaborator { message := "connection refused" })
        (some {}) []).1
        = Outcome.returned none (some { message := "connection refused" }) ∧
      copyCount (sampleClient.GetTotalTransactionsSum
        (failingCollaborator { message := "connection refused" }) (some {}) []).2
        = copyCount []) :=
  ⟨⟨rfl, (transport_error_returned_unchanged (failingCollaborator { message := "connection refused" })
      sampleClient [] { message := "connection refused" } (some { Date := "2023-05" })
      (some {})).1 rfl⟩,
   ⟨rfl, (transport_error_returned_unchanged (failingCollaborator { message := "connection refused" })
      sampleClient [] { message := "connection refused" } (some { Date := "2023-05" })
      (some {})).2 rfl⟩⟩

/-- C2: when the transport's `Request` returns a nil error together with an envelope
`E`, each of the two methods returns a nil error and a non-nil response whose embedded
`CommonResponse` is the one of `E`, the `Result` payload being whatever the transport
decoded. -/
theorem success_envelope_copied (core : Collaborator) (c : Client) (w : World) (E : Response)
    (p1 : Option ReportOnSoldProductsParams) (p2 : Option GetTotalTransactionsSumParams) :
    ((core.request w c.client "POST" "/v1/finance/realization" Payload.reportOnSoldProducts p1
        ({} : ReportOnSoldProductsResponse)).err = none →
      (core.request w c.client "POST" "/v1/finance/realization" Payload.reportOnSoldProducts p1
        ({} : ReportOnSoldProductsResponse)).response = some E →
      ∃ resp : ReportOnSoldProductsResponse,
        (c.ReportOnSoldProducts core p1 w).1 = Outcome.returned (some resp) none ∧
        resp.CommonResponse = E.CommonResponse ∧
        resp.Result = (core.request w c.client "POST" "/v1/finance/realization"
          Payload.reportOnSoldProducts p1 ({} : ReportOnSoldProductsResponse)).dest.Result) ∧
    ((core.request w c.client "POST" "/v3/finance/transaction/totals"
        Payload.getTotalTransactionsSum p2 ({} : GetTotalTransactionsSumResponse)).err = none →
      (core.request w c.client "POST" "/v3/finance/transaction/totals"
        Payload.getTotalTransactionsSum p2 ({} : GetTotalTransactionsSumResponse)).response = some E →
      ∃ resp : GetTotalTransactionsSumResponse,
        (c.GetTotalTransactionsSum core p2 w).1 = Outcome.returned (some resp) none ∧
        resp.CommonResponse = E.CommonResponse ∧
        resp.Result = (core.request w c.client "POST" "/v3/finance/transaction/totals"
          Payload.getTotalTransactionsSum p2 ({} : GetTotalTransactionsSumResponse)).dest.Result) := by
  constructor
  · intro h1 h2
    simp [Client.ReportOnSoldProducts, coreRequest, coreCopyCommonResponse, MethodPost, h1, h2,
      Response.CopyCommonResponse]
  · intro h1 h2
    simp [Client.GetTotalTransactionsSum, coreRequest, coreCopyCommonResponse, MethodPost, h1, h2,
      Response.CopyCommonResponse]

/-- Witness of C2: a transport answering with an envelope of status 200. -/
theorem success_envelope_copied_witness :
    (((replyingCollaborator { CommonResponse := { StatusCode := 200 } }).request []
        sampleClient.client "POST" "/v1/finance/realization" Payload.reportOnSoldProducts
        (some { Date := "2023-05" }) ({} : ReportOnSoldProductsResponse)).err = none ∧
      ((replyingCollaborator { CommonResponse := { StatusCode := 200 } }).request []
        sampleClient.client "POST" "/v1/finance/realization" Payload.reportOnSoldProducts
        (some { Date := "2023-05" }) ({} : ReportOnSoldProductsResponse)).response
        = some { CommonResponse := { StatusCode := 200 } } ∧
      ∃ resp : ReportOnSoldProductsResponse,
        (sampleClient.ReportOnSoldProducts
          (replyingCollaborator { CommonResponse := { StatusCode := 200 } })
          (some { Date := "2023-05" }) []).1 = Outcome.returned (some resp) none ∧
        resp.CommonResponse = { StatusCode := 200 } ∧
        resp.Result = []) ∧
    (((replyingCollaborator { CommonResponse := { StatusCode := 200 } }).request []
        sampleClient.client "POST" "/v3/finance/transaction/totals"
        Payload.getTotalTransactionsSum (some {}) ({} : GetTotalTransactionsSumResponse)).err
        = none ∧
      ((replyingCollaborator { CommonResponse := { StatusCode := 200 } }).request []
        sampleClient.client "POST" "/v3/finance/transaction/totals"
        Payload.getTotalTransactionsSum (some {}) ({} : GetTotalTransactionsSumResponse)).response
        = some { CommonResponse := { StatusCode := 200 } } ∧
      ∃ resp : GetTotalTransactionsSumResponse,
        (sampleClient.GetTotalTransactionsSum
          (replyingCollaborator { CommonResponse := { StatusCode := 200 } }) (some {}) []).1
          = Outcome.returned (some resp) none ∧
        resp.CommonResponse = { StatusCode := 200 } ∧
        resp.Result = {}) :=
  ⟨⟨rfl, rfl, (success_envelope_copied
      (replyingCollaborator { CommonResponse := { StatusCode := 200 } }) sampleClient []
      { CommonResponse := { StatusCode := 200 } } (some { Date := "2023-05" }) (some {})).1 rfl rfl⟩,
   ⟨rfl, rfl, (success_envelope_copied
      (replyingCollaborator { CommonResponse := { StatusCode := 200 } }) sampleClient []
      { CommonResponse := { StatusCode := 200 } } (some { Date := "2023-05" }) (some {})).2 rfl rfl⟩⟩

/-- C3: each of the two methods returns a non-nil error exactly when the transport's
`Request` returned one (and then the same one); when the transport returns a nil error
with an envelope, whatever status code or message that envelope reports, the method
returns a nil error and a response carrying that envelope. -/
theorem api_failure_is_not_an_error (core : Collaborator) (c : Client) (w : World) (E : Response)
    (p1 : Option ReportOnSoldProductsParams) (p2 : Option GetTotalTransactionsSumParams) :
    (∀ e : GoError, (c.ReportOnSoldProducts core p1 w).1.err = some e ↔
      (core.request w c.client "POST" "/v1/finance/realization" Payload.reportOnSoldProducts p1
        ({} : ReportOnSoldProductsResponse)).err = some e) ∧
    (∀ e : GoError, (c.GetTotalTransactionsSum core p2 w).1.err = some e ↔
      (core.request w c.client "POST" "/v3/finance/transaction/totals"
        Payload.getTotalTransactionsSum p2 ({} : GetTotalTransactionsSumResponse)).err = some e) ∧
    ((core.request w c.client "POST" "/v1/finance/realization" Payload.reportOnSoldProducts p1
        ({} : ReportOnSoldProductsResponse)).err = none →
      (core.request w c.client "POST" "/v1/finance/realization" Payload.reportOnSoldProducts p1
        ({} : ReportOnSoldProductsResponse)).response = some E →
      ∃ resp : ReportOnSoldProductsResponse,
        (c.ReportOnSoldProducts core p1 w).1 = Outcome.returned (some resp) none ∧
        resp.CommonResponse = E.CommonResponse) ∧
    ((core.request w c.client "POST" "/v3/finance/transaction/totals"
        Payload.getTotalTransactionsSum p2 ({} : GetTotalTransactionsSumResponse)).err = none →
      (core.request w c.client "POST" "/v3/finance/transaction/totals"
        Payload.getTotalTransactionsSum p2 ({} : GetTotalTransactionsSumResponse)).response = some E →
      ∃ resp : GetTotalTransactionsSumResponse,
        (c.GetTotalTransactionsSum core p2 w).1 = Outcome.returned (some resp) none ∧
        resp.CommonResponse = E.CommonResponse) := by
  refine ⟨?_, ?_, ?_, ?_⟩
  · intro e
    simp only [Client.ReportOnSoldProducts, coreRequest, coreCopyCommonResponse, MethodPost]
    cases h1 : (core.request w c.client "POST" "/v1/finance/realization"
      Payload.reportOnSoldProducts p1 ({} : ReportOnSoldProductsResponse)).err with
    | some e1 => simp [Outcome.err]
    | none =>
      cases h2 : (core.request w c.client "POST" "/v1/finance/realization"
        Payload.reportOnSoldProducts p1 ({} : ReportOnSoldProductsResponse)).response <;>
        simp [Outcome.err]
  · intro e
    simp only [Client.GetTotalTransactionsSum, coreRequest, coreCopyCommonResponse, MethodPost]
    cases h1 : (core.request w c.client "POST" "/v3/finance/transaction/totals"
      Payload.getTotalTransactionsSum p2 ({} : GetTotalTransactionsSumResponse)).err with
    | some e1 => simp [Outcome.err]
    | none =>
      cases h2 : (core.request w c.client "POST" "/v3/finance/transaction/totals"
        Payload.getTotalTransactionsSum p2 ({} : GetTotalTransactionsSumResponse)).response <;>
        simp [Outcome.err]
  · intro h1 h2
    simp [Client.ReportOnSoldProducts, coreRequest, coreCopyCommonResponse, MethodPost, h1, h2,
      Response.CopyCommonResponse]
  · intro h1 h2
    simp [Client.GetTotalTransactionsSum, coreRequest, coreCopyCommonResponse, MethodPost, h1, h2,
      Response.CopyCommonResponse]

/-- Witness of C3: a transport answering with an envelope that reports status 400 and
an error message. -/
theorem api_failure_is_not_an_error_witness :
    (((replyingCollaborator rejectionEnvelope).request [] sampleClient.client "POST"
        "/v1/finance/realization" Payload.reportOnSoldProducts (some { Date := "2023-13" })
        ({} : ReportOnSoldProductsResponse)).err = none ∧
      ((replyingCollaborator rejectionEnvelope).request [] sampleClient.client "POST"
        "/v1/finance/realization" Payload.reportOnSoldProducts (some { Date := "2023-13" })
        ({} : ReportOnSoldProductsResponse)).response = some rejectionEnvelope ∧
      ∃ resp : ReportOnSoldProductsResponse,
        (sampleClient.ReportOnSoldProducts (replyingCollaborator rejectionEnvelope)
          (some { Date := "2023-13" }) []).1 = Outcome.returned (some resp) none ∧
        resp.CommonResponse = rejectionEnvelope.CommonResponse) ∧
    (((replyingCollaborator rejectionEnvelope).request [] sampleClient.client "POST"
        "/v3/finance/transaction/totals" Payload.getTotalTransactionsSum
        (some reversedPeriodParams) ({} : GetTotalTransactionsSumResponse)).err = none ∧
      ((replyingCollaborator rejectionEnvelope).request [] sampleClient.client "POST"
        "/v3/finance/transaction/totals" Payload.getTotalTransactionsSum
        (some reversedPeriodParams) ({} : GetTotalTransactionsSumResponse)).response
        = some rejectionEnvelope ∧
      ∃ resp : GetTotalTransactionsSumResponse,
        (sampleClient.GetTotalTransactionsSum (replyingCollaborator rejectionEnvelope)
          (some reversedPeriodParams) []).1 = Outcome.returned (some resp) none ∧
        resp.CommonResponse = rejectionEnvelope.CommonResponse) :=
  ⟨⟨rfl, rfl, (api_failure_is_not_an_error (replyingCollaborator rejectionEnvelope) sampleClient
      [] rejectionEnvelope (some { Date := "2023-13" }) (some reversedPeriodParams)).2.2.1 rfl rfl⟩,
   ⟨rfl, rfl, (api_failure_is_not_an_error (replyingCollaborator rejectionEnvelope) sampleClient
      [] rejectionEnvelope (some { Date := "2023-13" }) (some reversedPeriodParams)).2.2.2 rfl rfl⟩⟩

theorem reportOnSoldProducts_requestLog (core : Collaborator) (c : Client) (w : World)
    (p : Option ReportOnSoldProductsParams) :
    requestLog (c.ReportOnSoldProducts core p w).2 =
      requestLog w ++ [{ client := c.client, method := "POST", path := "/v1/finance/realization",
                         payload := Payload.reportOnSoldProducts, body := p }] := by
  simp only [Client.ReportOnSoldProducts, coreRequest, coreCopyCommonResponse, MethodPost]
  cases (core.request w c.client "POST" "/v1/finance/realization"
    Payload.reportOnSoldProducts p ({} : ReportOnSoldProductsResponse)).err with
  | some e1 => simp [requestLog_append, requestLog]
  | none =>
    cases (core.request w c.client "POST" "/v1/finance/realization"
      Payload.reportOnSoldProducts p ({} : ReportOnSoldProductsResponse)).response <;>
      simp [requestLog_append, requestLog]

theorem getTotalTransactionsSum_requestLog (core : Collaborator) (c : Client) (w : World)
    (p : Option GetTotalTransactionsSumParams) :
    requestLog (c.GetTotalTransactionsSum core p w).2 =
      requestLog w ++ [{ client := c.client, method := "POST",
                         path := "/v3/finance/transaction/totals",
                         payload := Payload.getTotalTransactionsSum, body := p }] := by
  simp only [Client.GetTotalTransactionsSum, coreRequest, coreCopyCommonResponse, MethodPost]
  cases (core.request w c.client "POST" "/v3/finance/transaction/totals"
    Payload.getTotalTransactionsSum p ({} : GetTotalTransactionsSumResponse)).err with
  | some e1 => simp [requestLog_append, requestLog]
  | none =>
    cases (core.request w c.client "POST" "/v3/finance/transaction/totals"
      Payload.getTotalTransactionsSum p ({} : GetTotalTransactionsSumResponse)).response <;>
      simp [requestLog_append, requestLog]

/-- C4: whatever the params and whatever the transport answers, one call of
`ReportOnSoldProducts` adds exactly one request to the log of transport requests, with
verb POST and path "/v1/finance/realization", and one call of `GetTotalTransactionsSum`
adds exactly one, with verb POST and path "/v3/finance/transaction/totals". -/
theorem one_request_per_call (core : Collaborator) (c : Client) (w : World)
    (p1 : Option ReportOnSoldProductsParams) (p2 : Option GetTotalTransactionsSumParams) :
    requestLog (c.ReportOnSoldProducts core p1 w).2 =
      requestLog w ++ [{ client := c.client, method := "POST", path := "/v1/finance/realization",
                         payload := Payload.reportOnSoldProducts, body := p1 }] ∧
    requestLog (c.GetTotalTransactionsSum core p2 w).2 =
      requestLog w ++ [{ client := c.client, method := "POST",
                         path := "/v3/finance/transaction/totals",
                         payload := Payload.getTotalTransactionsSum, body := p2 }] :=
  ⟨reportOnSoldProducts_requestLog core c w p1, getTotalTransactionsSum_requestLog core c w p2⟩

/-- C5: `GetTotalTransactionsSum` hands its params to the transport as they are, in any
order of `From` and `To`, and how the call ends is determined by what the transport
returns: two calls whose transport results are equal end the same way, whatever their
params. -/
theorem totals_params_passed_unchanged (core core2 : Collaborator) (c c2 : Client) (w w2 : World)
    (p q : GetTotalTransactionsSumParams) :
    requestLog (c.GetTotalTransactionsSum core (some p) w).2 =
      requestLog w ++ [{ client := c.client, method := "POST",
                         path := "/v3/finance/transaction/totals",
                         payload := Payload.getTotalTransactionsSum, body := some p }] ∧
    (core.request w c.client "POST" "/v3/finance/transaction/totals"
        Payload.getTotalTransactionsSum (some p) ({} : GetTotalTransactionsSumResponse) =
      core2.request w2 c2.client "POST" "/v3/finance/transaction/totals"
        Payload.getTotalTransactionsSum (some q) ({} : GetTotalTransactionsSumResponse) →
      (c.GetTotalTransactionsSum core (some p) w).1 =
        (c2.GetTotalTransactionsSum core2 (some q) w2).1) := by
  refine ⟨getTotalTransactionsSum_requestLog core c w (some p), ?_⟩
  intro h
  simp only [Client.GetTotalTransactionsSum, coreRequest, coreCopyCommonResponse, MethodPost, h]
  cases (core2.request w2 c2.client "POST" "/v3/finance/transaction/totals"
      Payload.getTotalTransactionsSum (some q) ({} : GetTotalTransactionsSumResponse)).err with
  | some e1 => rfl
  | none =>
    cases (core2.request w2 c2.client "POST" "/v3/finance/transaction/totals"
        Payload.getTotalTransactionsSum (some q) ({} : GetTotalTransactionsSumResponse)).response <;>
      rfl

/-- Witness of C5: params whose `From` is later than their `To`, and params in the
usual order, on a transport that answers both alike. -/
theorem totals_params_passed_unchanged_witness :
    reversedPeriodParams.Date.To.unixNano < reversedPeriodParams.Date.From.unixNano ∧
    (replyingCollaborator {}).request [] sampleClient.client "POST"
        "/v3/finance/transaction/totals" Payload.getTotalTransactionsSum
        (some reversedPeriodParams) ({} : GetTotalTransactionsSumResponse) =
      (replyingCollaborator {}).request [] sampleClient.client "POST"
        "/v3/finance/transaction/totals" Payload.getTotalTransactionsSum
        (some orderedPeriodParams) ({} : GetTotalTransactionsSumResponse) ∧
    (sampleClient.GetTotalTransactionsSum (replyingCollaborator {})
        (some reversedPeriodParams) []).1 =
      (sampleClient.GetTotalTransactionsSum (replyingCollaborator {})
        (some orderedPeriodParams) []).1 :=
  ⟨by decide, rfl, (totals_params_passed_unchanged (replyingCollaborator {})
    (replyingCollaborator {}) sampleClient sampleClient [] []
    reversedPeriodParams orderedPeriodParams).2 rfl⟩

/-! ## Client facade -/

/-- C8: for both `NewClient` and `NewMockClient`, the facade holds the pointer that the
one call of the core constructor returned, each of the 19 category accessors returns a
non-nil sub-client of its own category holding that very pointer, and the construction
makes exactly one call of the core constructor and no other call into `core`. -/
theorem facade_shares_one_core_client (core : Collaborator) (w : World) (httpClient : HttpClient)
    (clientId apiKey : String) (handler : HandlerFunc) :
    ((NewClient core httpClient clientId apiKey w).1.Analytics
        = some { client := (NewClient core httpClient clientId apiKey w).1.client } ∧
      (NewClient core httpClient clientId apiKey w).1.FBO
        = some { client := (NewClient core httpClient clientId apiKey w).1.client } ∧
      (NewClient core httpClient clientId apiKey w).1.FBS
        = some { client := (NewClient core httpClient clientId apiKey w).1.client } ∧
      (NewClient core httpClient clientId apiKey w).1.Finance
        = some { client := (NewClient core httpClient clientId apiKey w).1.client } ∧
      (NewClient core httpClient clientId apiKey w).1.Products
        = some { client := (NewClient core httpClient clientId apiKey w).1.client } ∧
      (NewClient core httpClient clientId apiKey w).1.Promotions
        = some { client := (NewClient core httpClient clientId apiKey w).1.client } ∧
      (NewClient core httpClient clientId apiKey w).1.Rating
        = some { client := (NewClient core httpClient clientId apiKey w).1.client } ∧
      (NewClient core httpClient clientId apiKey w).1.Warehouses
        = some { client := (NewClient core httpClient clientId apiKey w).1.client } ∧
      (NewClient core httpClient clientId apiKey w).1.Returns
        = some { client := (NewClient core httpClient clientId apiKey w).1.client } ∧
      (NewClient core httpClient clientId apiKey w).1.Reports
        = some { client := (NewClient core httpClient clientId apiKey w).1.client } ∧
      (NewClient core httpClient clientId apiKey w).1.Cancellations
        = some { client := (NewClient core httpClient clientId apiKey w).1.client } ∧
      (NewClient core httpClient clientId apiKey w).1.Categories
        = some { client := (NewClient core httpClient clientId apiKey w).1.client } ∧
      (NewClient core httpClient clientId apiKey w).1.Polygons
        = some { client := (NewClient core httpClient clientId apiKey w).1.client } ∧
      (NewClient core httpClient clientId apiKey w).1.Invoices
        = some { client := (NewClient core httpClient clientId apiKey w).1.client } ∧
      (NewClient core httpClient clientId apiKey w).1.Brands
        = some { client := (NewClient core httpClient clientId apiKey w).1.client } ∧
      (NewClient core httpClient clientId apiKey w).1.Chats
        = some { client := (NewClient core httpClient clientId apiKey w).1.client } ∧
      (NewClient core httpClient clientId apiKey w).1.Certificates
        = some { client := (NewClient core httpClient clientId apiKey w).1.client } ∧
      (NewClient core httpClient clientId apiKey w).1.Strategies
        = some { client := (NewClient core httpClient clientId apiKey w).1.client } ∧
      (NewClient core httpClient clientId apiKey w).1.Barcodes
        = some { client := (NewClient core httpClient clientId apiKey w).1.client } ∧
      constructorCount (NewClient core httpClient clientId apiKey w).2 = constructorCount w + 1 ∧
      (NewClient core httpClient clientId apiKey w).1.client
        = core.newClient w httpClient "https://api-seller.ozon.ru"
            [("Client-Id", clientId), ("Api-Key", apiKey)] ∧
      (NewClient core httpClient clientId apiKey w).2
        = w ++ [CoreCall.NewClient httpClient "https://api-seller.ozon.ru"
            [("Client-Id", clientId), ("Api-Key", apiKey)]]) ∧
    ((NewMockClient core handler w).1.Analytics
        = some { client := (NewMockClient core handler w).1.client } ∧
      (NewMockClient core handler w).1.FBO
        = some { client := (NewMockClient core handler w).1.client } ∧
      (NewMockClient core handler w).1.FBS
        = some { client := (NewMockClient core handler w).1.client } ∧
      (NewMockClient core handler w).1.Finance
        = some { client := (NewMockClient core handler w).1.client } ∧
      (NewMockClient core handler w).1.Products
        = some { client := (NewMockClient core handler w).1.client } ∧
      (NewMockClient core handler w).1.Promotions
        = some { client := (NewMockClient core handler w).1.client } ∧
      (NewMockClient core handler w).1.Rating
        = some { client := (NewMockClient core handler w).1.client } ∧
      (NewMockClient core handler w).1.Warehouses
        = some { client := (NewMockClient core handler w).1.client } ∧
      (NewMockClient core handler w).1.Returns
        = some { client := (NewMockClient core handler w).1.client } ∧
      (NewMockClient core handler w).1.Reports
        = some { client := (NewMockClient core handler w).1.client } ∧
      (NewMockClient core handler w).1.Cancellations
        = some { client := (NewMockClient core handler w).1.client } ∧
      (NewMockClient core handler w).1.Categories
        = some { client := (NewMockClient core handler w).1.client } ∧
      (NewMockClient core handler w).1.Polygons
        = some { client := (NewMockClient core handler w).1.client } ∧
      (NewMockClient core handler w).1.Invoices
        = some { client := (NewMockClient core handler w).1.client } ∧
      (NewMockClient core handler w).1.Brands
        = some { client := (NewMockClient core handler w).1.client } ∧
      (NewMockClient core handler w).1.Chats
        = some { client := (NewMockClient core handler w).1.client } ∧
      (NewMockClient core handler w).1.Certificates
        = some { client := (NewMockClient core handler w).1.client } ∧
      (NewMockClient core handler w).1.Strategies
        = some { client := (NewMockClient core handler w).1.client } ∧
      (NewMockClient core handler w).1.Barcodes
        = some { client := (NewMockClient core handler w).1.client } ∧
      constructorCount (NewMockClient core handler w).2 = constructorCount w + 1 ∧
      (NewMockClient core handler w).1.client = core.newMockClient w handler ∧
      (NewMockClient core handler w).2 = w ++ [CoreCall.NewMockClient handler]) := by
  refine ⟨⟨rfl, rfl, rfl, rfl, rfl, rfl, rfl, rfl, rfl, rfl, rfl, rfl, rfl, rfl, rfl, rfl, rfl,
    rfl, rfl, ?_, rfl, rfl⟩, ⟨rfl, rfl, rfl, rfl, rfl, rfl, rfl, rfl, rfl, rfl, rfl, rfl, rfl,
    rfl, rfl, rfl, rfl, rfl, rfl, ?_, rfl, rfl⟩⟩
  · simp [NewClient, coreNewClient, constructorCount_append, constructorCount]
  · simp [NewMockClient, coreNewMockClient, constructorCount_append, constructorCount]

/-- C9: `NewClient` constructs the core client with base URL
"https://api-seller.ozon.ru" and a header map whose keys are exactly "Client-Id" and
"Api-Key", the first bound to `clientId` and the second to `apiKey`. -/
theorem newClient_base_url_and_headers (core : Collaborator) (w : World) (httpClient : HttpClient)
    (clientId apiKey : String) :
    ∃ headers : HeaderMap,
      (NewClient core httpClient clientId apiKey w).2 =
        w ++ [CoreCall.NewClient httpClient "https://api-seller.ozon.ru" headers] ∧
      (NewClient core httpClient clientId apiKey w).1.client =
        core.newClient w httpClient "https://api-seller.ozon.ru" headers ∧
      headers.length = 2 ∧
      headers.map Prod.fst = ["Client-Id", "Api-Key"] ∧
      HeaderMap.get headers "Client-Id" = some clientId ∧
      HeaderMap.get headers "Api-Key" = some apiKey := by
  refine ⟨[("Client-Id", clientId), ("Api-Key", apiKey)], rfl, rfl, rfl, rfl, ?_, ?_⟩
  · simp [HeaderMap.get]
  · simp [HeaderMap.get]

/-! ## JSON binding: general lemmas -/

theorem decodeElems_map {α : Type} (elem : Json → Option α) (enc : α → Json)
    (h : ∀ a, elem (enc a) = some a) :
    ∀ xs : List α, decodeElems elem (xs.map enc) = some xs := by
  intro xs
  induction xs with
  | nil => rfl
  | cons x xs ih => simp [decodeElems, h, ih]

theorem header_roundtrip (cur v : ReportOnSoldProductsHeader) :
    decodeStruct headerFields cur (encodeStruct headerFields v) = some v := by
  cases v; rfl

theorem totals_roundtrip (cur v : GetTotalTransactionsSumResult) :
    decodeStruct totalsFields cur (encodeStruct totalsFields v) = some v := by
  cases v; rfl

theorem decodeInt32_val (cur n : GoInt32) :
    decodeInt32 cur (Json.number (JsonNumber.integer n.val)) = some n := by
  simp [decodeInt32, n.property]

theorem decodeInt64_val (cur n : GoInt64) :
    decodeInt64 cur (Json.number (JsonNumber.integer n.val)) = some n := by
  simp [decodeInt64, n.property]

theorem row_roundtrip (cur v : ReportOnSoldProductsRow) :
    decodeStruct rowFields cur (encodeStruct rowFields v) = some v := by
  cases v
  simp [decodeStruct, encodeStruct, rowFields, decodeMembers, decodeMember, findField,
    decodeInt32_val, decodeInt64_val, decodeString, decodeFloat64]

theorem result_roundtrip (cur v : ReportOnSoldProductsResult) :
    decodeStruct resultFields cur (encodeStruct resultFields v) = some v := by
  have hH := decodeElems_map decodeHeader (encodeStruct headerFields)
    (fun a => header_roundtrip {} a) v.Header
  have hR := decodeElems_map decodeRow (encodeStruct rowFields)
    (fun a => row_roundtrip {} a) v.Rows
  cases v
  simp only [] at hH hR
  simp [decodeStruct, encodeStruct, resultFields, decodeMembers, decodeMember, findField,
    decodeSlice, hH, hR]

/-- C7: for the payloads of both responses, encoding a value as the JSON object keyed by
the declared tags and decoding that object by the same tags gives the value back; the
tags of each struct are pairwise distinct. -/
theorem payload_roundtrip :
    (∀ cur v : ReportOnSoldProductsHeader,
      decodeStruct headerFields cur (encodeStruct headerFields v) = some v) ∧
    (∀ cur v : ReportOnSoldProductsRow,
      decodeStruct rowFields cur (encodeStruct rowFields v) = some v) ∧
    (∀ cur v : ReportOnSoldProductsResult,
      decodeStruct resultFields cur (encodeStruct resultFields v) = some v) ∧
    (∀ resp0 v : ReportOnSoldProductsResponse,
      decodeReportOnSoldProductsResponse resp0
        (encodeStruct reportOnSoldProductsResponseFields v)
        = some { resp0 with Result := v.Result }) ∧
    (∀ cur v : GetTotalTransactionsSumResult,
      decodeStruct totalsFields cur (encodeStruct totalsFields v) = some v) ∧
    (∀ resp0 v : GetTotalTransactionsSumResponse,
      decodeGetTotalTransactionsSumResponse resp0
        (encodeStruct getTotalTransactionsSumResponseFields v)
        = some { resp0 with Result := v.Result }) ∧
    (tagsOf headerFields).Nodup ∧ (tagsOf rowFields).Nodup ∧ (tagsOf resultFields).Nodup ∧
    (tagsOf reportOnSoldProductsResponseFields).Nodup ∧ (tagsOf totalsFields).Nodup ∧
    (tagsOf getTotalTransactionsSumResponseFields).Nodup := by
  refine ⟨header_roundtrip, row_roundtrip, result_roundtrip, ?_, totals_roundtrip, ?_,
    by decide, by decide, by decide, by decide, by decide, by decide⟩
  · intro resp0 v
    have h := decodeElems_map decodeResult (encodeStruct resultFields)
      (fun a => result_roundtrip {} a) v.Result
    simp [decodeReportOnSoldProductsResponse, decodeStruct, encodeStruct,
      reportOnSoldProductsResponseFields, decodeMembers, decodeMember, findField, decodeSlice, h]
  · intro resp0 v
    rfl

/-- C10, on the code: a body carrying the key "compensation_amount" with the value 2
decodes with `CompensationAmount` left at zero, because the field is bound to the key
"compensatino_amount"; the other seven fields receive the values under their keys. -/
theorem totals_compensation_amount_not_decoded :
    findField totalsFields "compensation_amount" = none ∧
    (findField totalsFields "compensatino_amount").isSome ∧
    ∃ resp : GetTotalTransactionsSumResponse,
      decodeGetTotalTransactionsSumResponse {} sampleTotalsBody = some resp ∧
      resp.Result.CompensationAmount = JsonNumber.integer 0 ∧
      resp.Result.CompensationAmount ≠ JsonNumber.integer 2 ∧
      resp.Result.AccrualsForSale = JsonNumber.integer 1 ∧
      resp.Result.MoneyTransfer = JsonNumber.integer 3 ∧
      resp.Result.OthersAmount = JsonNumber.integer 4 ∧
      resp.Result.ProcessingAndDelivery = JsonNumber.integer 5 ∧
      resp.Result.RefundsAndCancellations = JsonNumber.integer 6 ∧
      resp.Result.SaleCommission = JsonNumber.integer 7 ∧
      resp.Result.ServicesAmount = JsonNumber.integer 8 :=
  ⟨rfl, rfl, _, rfl, rfl, by decide, rfl, rfl, rfl, rfl, rfl, rfl, rfl⟩

end Ozon
